import Mathlib

/-!
# Multi-Game bot monitoring core: a shallow embedding

This file embeds the monitoring core of the Multi-Game bot repository
(crash detector, scheduler, RCON manager, player-list extractors,
presence reconciliation, playtime ledger, chat-reward cooldown) as Lean
definitions translated from the Python source, and proves properties of
those definitions.

Sources embedded:
- `game_bot_starter.py`: `crash_detector_task`, `smart_restart_task`,
  `LogFileHandler.handle_log_event` (economy/cooldown part).
- `Multi-Game Dedicated Monitor Bot.py`: `update_player_join`,
  `update_player_leave`, `RconManager.send_command`,
  `RconManager.get_players`, `mc_player_extractor`,
  `pal_player_extractor`, `player_monitor_task.check_server`.
- `palworld_bot.py`: `monitor_rcon_task`.
-/

namespace MultiGameBot

/-! ## Crash/Recovery detector (`crash_detector_task`)

Per game, `offline_counters[server]` counts consecutive offline samples.
On an offline sample the counter is incremented and an Offline alert is
sent exactly when the counter equals the threshold
(`offline_checks_before_alert`).  On an online sample a Recovery alert is
sent when the counter is at least the threshold, and the counter is reset
to zero. -/

inductive DetectorEvent where
  | offline
  | recovery
deriving DecidableEq, Repr

/-- One liveness sample processed by `crash_detector_task` for one game:
`ok = false` means the status string contained `**Offline**`.  Returns the
new counter and the alert sent on this sample, if any. -/
def detectorStep (threshold : Nat) (counter : Nat) (ok : Bool) :
    Nat × Option DetectorEvent :=
  if ok then
    (0, if threshold ≤ counter then some .recovery else none)
  else
    (counter + 1, if counter + 1 = threshold then some .offline else none)

/-- Processing a sequence of liveness samples for one game: the final
counter and, per sample, the alert sent on that sample. -/
def detectorRun (threshold : Nat) (counter : Nat) :
    List Bool → Nat × List (Option DetectorEvent)
  | [] => (counter, [])
  | s :: rest =>
    let p := detectorStep threshold counter s
    let q := detectorRun threshold p.1 rest
    (q.1, p.2 :: q.2)

/-! ## Scheduler (`smart_restart_task`)

`smart_restart_task` runs on a fixed tick.  Each tick computes the current
UTC time as an `HH:MM` string and, for every configured schedule entry
whose `time_utc` equals that string, sends the broadcast message, then the
save commands, then the shutdown commands.  The task keeps no record of
having fired: the trigger condition is re-evaluated from scratch on every
tick. -/

structure ScheduledEvent where
  time_utc : String
  message : String
  commands : List String
  shutdown_commands : List String
deriving DecidableEq, Repr

/-- One tick of `smart_restart_task` at UTC minute `currentTimeStr`: the
schedule entries whose `time_utc` matches the current minute, each of
which has its broadcast/save/shutdown command sequence run. -/
def smartRestartTick (currentTimeStr : String) (schedule : List ScheduledEvent) :
    List ScheduledEvent :=
  schedule.filter (fun event => event.time_utc == currentTimeStr)

/-- How many times a given event's command sequence is fired over a run of
ticks whose current UTC minute strings are `tickMinutes`. -/
def smartRestartFireCount (event : ScheduledEvent) (schedule : List ScheduledEvent)
    (tickMinutes : List String) : Nat :=
  (tickMinutes.map (fun m => (smartRestartTick m schedule).count event)).sum

/-! ## String helpers

Python string operations used by the monitor bot, modelled on the
character list underlying a `String`.  `pySplit` is Python's
`str.split(sep)` for a one-character separator (`"".split(sep) == [""]`,
and a trailing separator yields a trailing empty part); `pyStrip` is
`str.strip()`; `strContains` is Python's `in` on strings;
`strStartsWith` is `str.startswith`. -/

def pySplit (c : Char) : List Char → List (List Char)
  | [] => [[]]
  | x :: xs =>
    match pySplit c xs with
    | [] => [[]]
    | h :: t => if x = c then [] :: h :: t else (x :: h) :: t

def pyStrip (l : List Char) : List Char :=
  ((l.dropWhile Char.isWhitespace).reverse.dropWhile Char.isWhitespace).reverse

def strContains (s pattern : String) : Bool :=
  decide (pattern.data <:+: s.data)

def strStartsWith (s pattern : String) : Bool :=
  decide (pattern.data <+: s.data)

/-! ## Session/playtime ledger
(`update_player_join` / `update_player_leave`)

`player_stats` maps a `"game:player"` key to `{first_join,
total_playtime_seconds}` and is saved to disk (`save_stats`) on every
mutation; `mc_join_times` / `pal_join_times` map a player name to their
in-memory session-start time for the respective game.  Timestamps are
modelled as integers; the boolean in each result records whether
`save_stats` was called (i.e. whether the durable file was rewritten). -/

structure StatsEntry where
  first_join : Int
  total_playtime_seconds : Int
deriving DecidableEq, Repr

/-- In-memory `player_stats` dictionary, keyed by `"game:player"`. -/
def PlayerStats := String → Option StatsEntry

/-- Per-game join-time dictionary (`mc_join_times` / `pal_join_times`). -/
def JoinTimes := String → Option Int

/-- Function `update_player_join(game, player)` at time `now`: create the
persistent entry (first join, zero playtime) and save if the key is
absent, then record the live session start time. -/
def update_player_join (game player : String) (now : Int)
    (stats : PlayerStats) (joinTimes : JoinTimes) :
    PlayerStats × JoinTimes × Bool :=
  let key := game ++ ":" ++ player
  match stats key with
  | none =>
      (fun k => if k = key then some ⟨now, 0⟩ else stats k,
       fun p => if p = player then some now else joinTimes p,
       true)
  | some _ =>
      (stats, fun p => if p = player then some now else joinTimes p, false)

/-- Function `update_player_leave(game, player)` at time `now`: if the player has
no recorded join time the function returns immediately; otherwise the
join time is popped, and if a persistent entry exists the session
duration is added to its cumulative playtime and the stats are saved. -/
def update_player_leave (game player : String) (now : Int)
    (stats : PlayerStats) (joinTimes : JoinTimes) :
    PlayerStats × JoinTimes × Bool :=
  match joinTimes player with
  | none => (stats, joinTimes, false)
  | some join_time =>
      let joinTimes' : JoinTimes := fun p => if p = player then none else joinTimes p
      let key := game ++ ":" ++ player
      let session_duration := now - join_time
      match stats key with
      | some e =>
          (fun k => if k = key then
              some ⟨e.first_join, e.total_playtime_seconds + session_duration⟩
            else stats k,
           joinTimes', true)
      | none => (stats, joinTimes', false)

/-- The cumulative playtime recorded for a ledger key (0 if absent). -/
def totalOf (stats : PlayerStats) (key : String) : Int :=
  match stats key with
  | some e => e.total_playtime_seconds
  | none => 0

/-! ## RCON manager (`RconManager.send_command` / `get_players`)

`send_command` reconnects if needed and returns the stripped server
response; every failure path returns a string starting with `"ERROR:"`
instead of raising. -/

/-- The possible outcomes of one RCON round trip, as distinguished by
`RconManager.send_command`'s branches. -/
inductive RconOutcome where
  | connectFail (lastError : String)
  | commandFail (err : String)
  | unexpectedFail (err : String)
  | success (response : String)

/-- Method `RconManager.send_command`: the string returned for each outcome. -/
def send_command : RconOutcome → String
  | .connectFail e => "ERROR: Not connected. Last RCON failure: " ++ e
  | .commandFail e => "ERROR: Command failed and connection dropped (" ++ e ++ ")."
  | .unexpectedFail e => "ERROR: An unexpected RCON error occurred: " ++ e
  | .success r => r.trim

/-- Method `RconManager.get_players`: run the list command; on an `"ERROR:"`
response return the empty set, otherwise run the extractor. -/
def get_players (extractor : String → Finset String) (o : RconOutcome) :
    Finset String × String :=
  let response := send_command o
  if strStartsWith response "ERROR:" then (∅, response)
  else (extractor response, response)

/-! ## Player-list extractors -/

/-- Extractor `mc_player_extractor`: parse Minecraft's `list` response
`"There are X of a max of Y players online: A, B"`; everything after the
first colon is split on commas and stripped, blank names dropped. -/
def mc_player_extractor (response : String) : Finset String :=
  if response.data.contains ':' then
    let playerListStr := pyStrip ((response.data.dropWhile (fun ch => ch ≠ ':')).drop 1)
    let playerNames := ((pySplit ',' playerListStr).map pyStrip).filter (fun n => n ≠ [])
    (playerNames.map String.mk).toFinset
  else ∅

/-- Extractor `pal_player_extractor`: parse Palworld's `ShowPlayers` response;
skip the header line, then take the first comma-separated field of each
stripped line as the player name, dropping blanks. -/
def pal_player_extractor (response : String) : Finset String :=
  let lines := (pySplit '\n' response.data).drop 1
  (lines.filterMap (fun line =>
    match pySplit ',' (pyStrip line) with
    | [] => none
    | p0 :: _ =>
        let name := pyStrip p0
        if name = [] then none else some (String.mk name))).toFinset

/-! ## Presence reconciliation (`player_monitor_task.check_server`)

One tick for one server: fetch the player list; if the raw response
contains `"ERROR:"` keep the previous player set and emit nothing;
otherwise diff the new set against the previous one, process joins (in
some enumeration order, modelled as sorted) then leaves, and return the
new set.  `joinEvents` / `leaveEvents` are the players for which a
Join / Leave embed was sent this tick, in processing order. -/

structure CheckOut where
  newSet : Finset String
  stats : PlayerStats
  joinTimes : JoinTimes
  joinEvents : List String
  leaveEvents : List String

/-- The join loop of `check_server`: `update_player_join` for each newly
joined player. -/
def processJoins (game : String) (now : Int) (players : List String)
    (sj : PlayerStats × JoinTimes) : PlayerStats × JoinTimes :=
  players.foldl (fun sj p =>
    let r := update_player_join game p now sj.1 sj.2
    (r.1, r.2.1)) sj

/-- The leave loop of `check_server`: `update_player_leave` for each
player that left. -/
def processLeaves (game : String) (now : Int) (players : List String)
    (sj : PlayerStats × JoinTimes) : PlayerStats × JoinTimes :=
  players.foldl (fun sj p =>
    let r := update_player_leave game p now sj.1 sj.2
    (r.1, r.2.1)) sj

/-- Helper `check_server(monitor, game_code, current_set)` for one tick, given
the raw RCON response of this tick. -/
def check_server (game : String) (now : Int)
    (extractor : String → Finset String) (raw : String)
    (currentSet : Finset String) (stats : PlayerStats)
    (joinTimes : JoinTimes) : CheckOut :=
  if strContains raw "ERROR:" then
    ⟨currentSet, stats, joinTimes, [], []⟩
  else
    let newPlayers := extractor raw
    let joinedPlayers := (newPlayers \ currentSet).sort (· ≤ ·)
    let leftPlayers := (currentSet \ newPlayers).sort (· ≤ ·)
    let sj1 := processJoins game now joinedPlayers (stats, joinTimes)
    let sj2 := processLeaves game now leftPlayers sj1
    ⟨newPlayers, sj2.1, sj2.2, joinedPlayers, leftPlayers⟩

/-! ## palworld_bot variant (`monitor_rcon_task`)

This variant keeps only a name set.  A `ConnectionError` skips the tick
entirely; when the previous set is empty (`if not last_player_set`) the
tick just initializes the set without emitting events; otherwise it
emits join and leave messages from the set difference and replaces the
set. -/

/-- One tick of `palworld_bot.monitor_rcon_task`: `none` models a
`ConnectionError` from `_get_current_players`.  Returns the new
`last_player_set` and the join and leave messages sent. -/
def monitor_rcon_task_step (lastPlayerSet : Finset String)
    (pollResult : Option (Finset String)) :
    Finset String × List String × List String :=
  match pollResult with
  | none => (lastPlayerSet, [], [])
  | some currentPlayerSet =>
    if lastPlayerSet = ∅ then (currentPlayerSet, [], [])
    else (currentPlayerSet,
          (currentPlayerSet \ lastPlayerSet).sort (· ≤ ·),
          (lastPlayerSet \ currentPlayerSet).sort (· ≤ ·))

/-! ## Chat-reward cooldown (`LogFileHandler.handle_log_event`)

`LogFileHandler` holds one `chat_cooldowns` dictionary for all games,
keyed by username.  When a parsed log event has both a username and a
message and the economy is enabled with a positive per-chat reward, the
player is rewarded iff `now - chat_cooldowns.get(username, 0) >
cooldown_seconds`, in which case `chat_cooldowns[username] = now`. -/

/-- The economy branch of `handle_log_event` for a chat event (an event
whose data has both `username` and `message`): the updated cooldown map
and whether points were awarded.  The `game` argument is received by
`handle_log_event` but plays no part in the cooldown logic. -/
def handle_log_event_econ (economyEnabled : Bool) (pointsPerChat : Int)
    (cooldownSeconds : Int) (game : String) (username : String) (now : Int)
    (chatCooldowns : String → Option Int) : (String → Option Int) × Bool :=
  if economyEnabled ∧ 0 < pointsPerChat then
    if cooldownSeconds < now - (chatCooldowns username).getD 0 then
      ((fun u => if u = username then some now else chatCooldowns u), true)
    else (chatCooldowns, false)
  else (chatCooldowns, false)

/-! ## Helper lemmas -/

theorem detectorRun_append (t c : Nat) (xs ys : List Bool) :
    detectorRun t c (xs ++ ys) =
      ((detectorRun t (detectorRun t c xs).1 ys).1,
       (detectorRun t c xs).2 ++ (detectorRun t (detectorRun t c xs).1 ys).2) := by
  induction xs generalizing c with
  | nil => simp [detectorRun]
  | cons x xs ih => simp [detectorRun, ih]

/-- A failure streak that stays strictly below the threshold emits no
alert and just counts up. -/
theorem detectorRun_fails_below (t : Nat) (k c : Nat) (h : c + k < t) :
    detectorRun t c (List.replicate k false) =
      (c + k, List.replicate k none) := by
  induction k generalizing c with
  | zero => simp [detectorRun]
  | succ n ih =>
    have hc : c + 1 + n < t := by omega
    have hne : ¬ (c + 1 = t) := by omega
    simp [List.replicate_succ, detectorRun, detectorStep, hne, ih (c + 1) hc]
    omega

/-- Once the counter is at or past the threshold (latched), further
failures keep counting but emit no further Offline alert. -/
theorem detectorRun_fails_latched (t : Nat) (k c : Nat) (h : t ≤ c) :
    detectorRun t c (List.replicate k false) =
      (c + k, List.replicate k none) := by
  induction k generalizing c with
  | zero => simp [detectorRun]
  | succ n ih =>
    have hne : ¬ (c + 1 = t) := by omega
    simp [List.replicate_succ, detectorRun, detectorStep, hne, ih (c + 1) (by omega)]
    omega

theorem smartRestartTick_count (event : ScheduledEvent)
    (schedule : List ScheduledEvent) (m : String) :
    (smartRestartTick m schedule).count event =
      if event.time_utc = m then schedule.count event else 0 := by
  by_cases h : event.time_utc = m
  · simp only [h, if_pos rfl, smartRestartTick]
    exact List.count_filter (by simp [h])
  · simp only [if_neg h, smartRestartTick]
    refine List.count_eq_zero.mpr fun hmem => ?_
    have := List.of_mem_filter hmem
    simp at this
    exact h this

/-! ## Claim theorems -/

/-- C1. For every per-game sequence of liveness samples processed by
`crash_detector_task` of the form "ok, then k consecutive fails, then ok"
(an outage of length `k` starting from a healthy counter), exactly one
Offline alert is sent, on the sample that makes the consecutive-failure
count reach the threshold, and exactly one Recovery alert is sent, on the
first successful sample after it; a failure streak that ends before
reaching the threshold sends no alert at all; the counter keeps counting
while latched and the final counter is reset to zero. -/
theorem crash_detector_one_alert_per_outage (t k : Nat) (ht : 1 ≤ t) :
    detectorRun t 0 (true :: (List.replicate k false ++ [true])) =
      (0, none :: (if k < t then List.replicate (k + 1) none
        else List.replicate (t - 1) none ++
          some .offline :: (List.replicate (k - t) none ++ [some .recovery]))) := by
  have hstep0 : detectorStep t 0 true = (0, none) := by
    simp [detectorStep]; omega
  by_cases hk : k < t
  · have hbelow := detectorRun_fails_below t k 0 (by omega)
    simp only [detectorRun, hstep0, detectorRun_append, hbelow]
    simp [detectorStep, hk, Nat.not_le.mpr hk, List.replicate_succ']
  · push_neg at hk
    have hsplit : List.replicate k false =
        List.replicate (t - 1) false ++ false ::
          List.replicate (k - t) false := by
      rw [← List.replicate_succ]
      rw [← List.replicate_add]
      congr 1
      omega
    have hbelow := detectorRun_fails_below t (t - 1) 0 (by omega)
    have hmid : detectorStep t (0 + (t - 1)) false = (t, some .offline) := by
      simp [detectorStep]
      omega
    have hlatch := detectorRun_fails_latched t (k - t) t (by omega)
    simp only [detectorRun, hstep0, hsplit, detectorRun_append, hbelow]
    simp only [detectorRun, hmid, detectorRun_append, hlatch]
    simp [detectorStep, hk, Nat.not_lt.mpr hk]

/-- Witness for C1 at the spec's example: threshold 3 and samples
`[ok, fail, fail, fail, fail, ok]` give exactly one Offline alert on the
third consecutive fail and exactly one Recovery alert on the final ok. -/
theorem crash_detector_one_alert_per_outage_witness :
    detectorRun 3 0 (true :: (List.replicate 4 false ++ [true])) =
      (0, none :: (if 4 < 3 then List.replicate (4 + 1) none
        else List.replicate (3 - 1) none ++
          some .offline :: (List.replicate (4 - 3) none ++ [some .recovery]))) :=
  crash_detector_one_alert_per_outage 3 4 (by decide)

/-- C3 counterexample: `smart_restart_task` keeps no last-fired-minute
marker, so six ticks inside one matching UTC minute fire the event's
command sequence six times, not at most once. -/
theorem smart_restart_double_fire_counterexample :
    smartRestartFireCount ⟨"03:00", "Server restarting soon", ["save-all"], ["stop"]⟩
        [⟨"03:00", "Server restarting soon", ["save-all"], ["stop"]⟩]
        (List.replicate 6 "03:00") = 6 ∧
      ¬ (smartRestartFireCount ⟨"03:00", "Server restarting soon", ["save-all"], ["stop"]⟩
        [⟨"03:00", "Server restarting soon", ["save-all"], ["stop"]⟩]
        (List.replicate 6 "03:00") ≤ 1) := by
  constructor
  · rfl
  · decide

/-- C3 amended.  The scheduler fires an event's command sequence once per
tick whose current UTC minute equals the event's configured time (times the
event's multiplicity in the schedule); hence it fires at most once within a
UTC calendar minute only when at most one tick falls inside the matching
minute — there is no per-event last-fired-minute guard. -/
theorem smart_restart_fires_once_per_matching_tick (event : ScheduledEvent)
    (schedule : List ScheduledEvent) (tickMinutes : List String) :
    smartRestartFireCount event schedule tickMinutes =
        schedule.count event * tickMinutes.count event.time_utc ∧
      (tickMinutes.count event.time_utc ≤ 1 → schedule.count event ≤ 1 →
        smartRestartFireCount event schedule tickMinutes ≤ 1) := by
  have hchar : smartRestartFireCount event schedule tickMinutes =
      schedule.count event * tickMinutes.count event.time_utc := by
    induction tickMinutes with
    | nil => simp [smartRestartFireCount]
    | cons m rest ih =>
      simp only [smartRestartFireCount, List.map_cons, List.sum_cons] at ih ⊢
      rw [smartRestartTick_count, ih, List.count_cons]
      by_cases h : event.time_utc = m
      · simp [h, Nat.mul_add]
        ring
      · have : ¬ (m = event.time_utc) := fun hc => h hc.symm
        simp [h, this]
  refine ⟨hchar, fun h1 h2 => ?_⟩
  rw [hchar]
  calc schedule.count event * tickMinutes.count event.time_utc
      ≤ 1 * 1 := Nat.mul_le_mul h2 h1
    _ = 1 := Nat.one_mul 1

/-- Witness for C3 amended: with one tick in the matching minute the event
fires exactly once, hence at most once. -/
theorem smart_restart_fires_once_per_matching_tick_witness :
    smartRestartFireCount ⟨"03:00", "Server restarting soon", ["save-all"], ["stop"]⟩
        [⟨"03:00", "Server restarting soon", ["save-all"], ["stop"]⟩] ["03:00"] ≤ 1 :=
  (smart_restart_fires_once_per_matching_tick
      ⟨"03:00", "Server restarting soon", ["save-all"], ["stop"]⟩
      [⟨"03:00", "Server restarting soon", ["save-all"], ["stop"]⟩] ["03:00"]).2
    (by decide) (by decide)

/-- C6. The Minecraft-style extractor on the spec's exact input yields
exactly `{"Alice", "Bob"}`, and so does the Palworld-style extractor on
its exact input. -/
theorem extractors_round_trip :
    mc_player_extractor "There are 2 of a max of 20 players online: Alice, Bob" =
        {"Alice", "Bob"} ∧
      pal_player_extractor "Name,PlayerUID,SteamID\nAlice,1,111\nBob,2,222" =
        {"Alice", "Bob"} := by
  constructor <;> decide

/-- C4. A Leave for a (game, player) with no in-memory join-time entry is
a complete no-op: the ledger is unchanged, the join-time map is unchanged,
and nothing is written to the store (`save_stats` is not called). -/
theorem leave_without_join_is_noop (game player : String) (now : Int)
    (stats : PlayerStats) (joinTimes : JoinTimes)
    (h : joinTimes player = none) :
    update_player_leave game player now stats joinTimes =
      (stats, joinTimes, false) := by
  unfold update_player_leave
  rw [h]

/-- Witness for C4: a Leave for an untracked player at a concrete state. -/
theorem leave_without_join_is_noop_witness :
    ((fun _ => none : JoinTimes) "Ghost" = none) ∧
      update_player_leave "mc" "Ghost" 5 (fun _ => none) (fun _ => none) =
        ((fun _ => none), (fun _ => none), false) :=
  ⟨rfl, leave_without_join_is_noop "mc" "Ghost" 5 (fun _ => none) (fun _ => none) rfl⟩

/-- C5. Cumulative playtime (`total_playtime_seconds`) never decreases:
a join never lowers any ledger entry's total; a leave never lowers any
ledger entry's total provided every recorded join time is at most the
current time (the clock has not run backwards); and whenever an operation
does not write the store (`save_stats` not called) the ledger is
unchanged, so a restart, which reloads the last written state, preserves
totals as well. -/
theorem total_playtime_monotone (game player key : String) (now : Int)
    (stats : PlayerStats) (joinTimes : JoinTimes) :
    totalOf stats key ≤
        totalOf (update_player_join game player now stats joinTimes).1 key ∧
      ((∀ p t, joinTimes p = some t → t ≤ now) →
        totalOf stats key ≤
          totalOf (update_player_leave game player now stats joinTimes).1 key) ∧
      ((update_player_join game player now stats joinTimes).2.2 = false →
        (update_player_join game player now stats joinTimes).1 = stats) ∧
      ((update_player_leave game player now stats joinTimes).2.2 = false →
        (update_player_leave game player now stats joinTimes).1 = stats) := by
  refine ⟨?_, ?_, ?_, ?_⟩
  · simp only [update_player_join]
    cases hs : stats (game ++ ":" ++ player) with
    | none =>
      by_cases hk : key = game ++ ":" ++ player
      · subst hk
        simp [totalOf, hs]
      · simp [totalOf, hk]
    | some e => simp [totalOf]
  · intro hmono
    simp only [update_player_leave]
    cases hj : joinTimes player with
    | none => simp [totalOf]
    | some jt =>
      have hd : 0 ≤ now - jt := by
        have := hmono player jt hj
        omega
      cases hs : stats (game ++ ":" ++ player) with
      | none => simp [totalOf]
      | some e =>
        by_cases hk : key = game ++ ":" ++ player
        · subst hk
          simp [totalOf, hs]
          omega
        · simp [totalOf, hk]
  · simp only [update_player_join]
    cases hs : stats (game ++ ":" ++ player) with
    | none => simp
    | some e => simp
  · simp only [update_player_leave]
    cases hj : joinTimes player with
    | none => simp
    | some jt =>
      cases hs : stats (game ++ ":" ++ player) with
      | none => simp
      | some e => simp

/-- Witness for C5: a leave at time 7 for a player who joined at time 3
with 10 seconds already accumulated does not decrease the total. -/
theorem total_playtime_monotone_witness :
    totalOf (fun k => if k = "mc:Alice" then some ⟨0, 10⟩ else none) "mc:Alice" ≤
      totalOf (update_player_leave "mc" "Alice" 7
        (fun k => if k = "mc:Alice" then some ⟨0, 10⟩ else none)
        (fun p => if p = "Alice" then some 3 else none)).1 "mc:Alice" :=
  (total_playtime_monotone "mc" "Alice" "mc:Alice" 7
      (fun k => if k = "mc:Alice" then some ⟨0, 10⟩ else none)
      (fun p => if p = "Alice" then some 3 else none)).2.1
    (by
      intro p t h
      by_cases hp : p = "Alice"
      · subst hp
        simp at h
        omega
      · simp [hp] at h)

/-- C2. On every reconciliation tick that succeeds (the raw response does
not contain `"ERROR:"`), the players reported as joined and the players
reported as left are disjoint, and a player present in both the old and
the new set is reported in neither. -/
theorem tick_joined_left_disjoint (game : String) (now : Int)
    (extractor : String → Finset String) (raw : String)
    (currentSet : Finset String) (stats : PlayerStats) (joinTimes : JoinTimes)
    (hok : strContains raw "ERROR:" = false) :
    (∀ p, p ∈ (check_server game now extractor raw currentSet stats
          joinTimes).joinEvents →
        p ∉ (check_server game now extractor raw currentSet stats
          joinTimes).leaveEvents) ∧
      ∀ p, p ∈ currentSet → p ∈ extractor raw →
        p ∉ (check_server game now extractor raw currentSet stats
            joinTimes).joinEvents ∧
          p ∉ (check_server game now extractor raw currentSet stats
            joinTimes).leaveEvents := by
  simp only [check_server, hok, Bool.false_eq_true, if_false]
  constructor
  · intro p hj hl
    rw [Finset.mem_sort, Finset.mem_sdiff] at hj hl
    exact hj.2 hl.1
  · intro p hold hnew
    constructor
    · rw [Finset.mem_sort, Finset.mem_sdiff]
      rintro ⟨-, h⟩
      exact h hold
    · rw [Finset.mem_sort, Finset.mem_sdiff]
      rintro ⟨-, h⟩
      exact h hnew

/-- Witness for C2: Bob is in both the old and the new set of a concrete
successful tick and is reported in neither the joined nor the left list. -/
theorem tick_joined_left_disjoint_witness :
    "Bob" ∉ (check_server "mc" 0 mc_player_extractor
        "There are 2 of a max of 20 players online: Alice, Bob"
        {"Bob", "Carol"} (fun _ => none) (fun _ => none)).joinEvents ∧
      "Bob" ∉ (check_server "mc" 0 mc_player_extractor
        "There are 2 of a max of 20 players online: Alice, Bob"
        {"Bob", "Carol"} (fun _ => none) (fun _ => none)).leaveEvents :=
  (tick_joined_left_disjoint "mc" 0 mc_player_extractor
      "There are 2 of a max of 20 players online: Alice, Bob"
      {"Bob", "Carol"} (fun _ => none) (fun _ => none) (by decide)).2
    "Bob" (by decide) (by decide)

/-- C7. On a tick whose raw response reports an error (contains
`"ERROR:"`), the tracked player set, the ledger and the join-time map are
returned exactly as they were, and no Join or Leave event is emitted. -/
theorem tick_error_preserves_state (game : String) (now : Int)
    (extractor : String → Finset String) (raw : String)
    (currentSet : Finset String) (stats : PlayerStats) (joinTimes : JoinTimes)
    (herr : strContains raw "ERROR:" = true) :
    check_server game now extractor raw currentSet stats joinTimes =
      ⟨currentSet, stats, joinTimes, [], []⟩ := by
  simp [check_server, herr]

/-- Witness for C7: a concrete error tick leaves the prior state intact. -/
theorem tick_error_preserves_state_witness :
    strContains "ERROR: Not connected. Last RCON failure: timeout" "ERROR:" = true ∧
      check_server "mc" 0 mc_player_extractor
          "ERROR: Not connected. Last RCON failure: timeout"
          {"Alice"} (fun _ => none) (fun _ => none) =
        ⟨{"Alice"}, (fun _ => none), (fun _ => none), [], []⟩ :=
  ⟨by decide,
   tick_error_preserves_state "mc" 0 mc_player_extractor
     "ERROR: Not connected. Last RCON failure: timeout"
     {"Alice"} (fun _ => none) (fun _ => none) (by decide)⟩

/-- C9. `send_command` signals every failure in-band: its result is either
the (stripped) server response or a string beginning with `"ERROR:"`; and
`check_server` classifies any raw response containing the substring
`"ERROR:"` — including a genuinely successful one — as a failed poll,
keeping the old player set and emitting no events. -/
theorem send_command_errors_in_band :
    (∀ o : RconOutcome,
        (∃ r, o = .success r ∧ send_command o = r.trim) ∨
          strStartsWith (send_command o) "ERROR:" = true) ∧
      ∀ (game : String) (now : Int) (extractor : String → Finset String)
          (raw : String) (currentSet : Finset String) (stats : PlayerStats)
          (joinTimes : JoinTimes),
        strContains raw "ERROR:" = true →
        check_server game now extractor raw currentSet stats joinTimes =
          ⟨currentSet, stats, joinTimes, [], []⟩ := by
  constructor
  · intro o
    cases o with
    | success r => exact Or.inl ⟨r, rfl, rfl⟩
    | connectFail e =>
      refine Or.inr ?_
      unfold send_command strStartsWith
      refine decide_eq_true ?_
      rw [String.data_append]
      exact List.IsPrefix.trans (by decide) (List.prefix_append _ _)
    | commandFail e =>
      refine Or.inr ?_
      unfold send_command strStartsWith
      refine decide_eq_true ?_
      rw [String.data_append, String.data_append]
      exact List.IsPrefix.trans
        (List.IsPrefix.trans (by decide) (List.prefix_append _ _))
        (List.prefix_append _ _)
    | unexpectedFail e =>
      refine Or.inr ?_
      unfold send_command strStartsWith
      refine decide_eq_true ?_
      rw [String.data_append]
      exact List.IsPrefix.trans (by decide) (List.prefix_append _ _)
  · intro game now extractor raw currentSet stats joinTimes herr
    simp [check_server, herr]

/-- Witness for C9: a concrete connection failure yields an `"ERROR:"`
string, and a successful response that merely contains `"ERROR:"` is
treated as a failed poll. -/
theorem send_command_errors_in_band_witness :
    strStartsWith (send_command (.connectFail "timeout")) "ERROR:" = true ∧
      check_server "mc" 0 mc_player_extractor
          "There are 0 of a max of 20 players online: ERROR:weirdname"
          {"Alice"} (fun _ => none) (fun _ => none) =
        ⟨{"Alice"}, (fun _ => none), (fun _ => none), [], []⟩ :=
  ⟨(send_command_errors_in_band.1 (.connectFail "timeout")).resolve_left
      (by rintro ⟨r, h, -⟩; cases h),
   send_command_errors_in_band.2 "mc" 0 mc_player_extractor
     "There are 0 of a max of 20 players online: ERROR:weirdname"
     {"Alice"} (fun _ => none) (fun _ => none) (by decide)⟩

theorem update_player_join_joinTimes (game player : String) (now : Int)
    (stats : PlayerStats) (joinTimes : JoinTimes) :
    (update_player_join game player now stats joinTimes).2.1 =
      fun p => if p = player then some now else joinTimes p := by
  cases hs : stats (game ++ ":" ++ player) <;>
    simp [update_player_join, hs]

theorem processJoins_joinTimes (game : String) (now : Int) (ps : List String)
    (sj : PlayerStats × JoinTimes) (p : String) :
    (processJoins game now ps sj).2 p =
      if p ∈ ps then some now else sj.2 p := by
  induction ps generalizing sj with
  | nil => simp [processJoins]
  | cons q rest ih =>
    simp only [processJoins, List.foldl_cons] at ih ⊢
    rw [ih, update_player_join_joinTimes]
    by_cases hp : p ∈ rest
    · simp [hp]
    · by_cases hq : p = q
      · simp [hp, hq]
      · simp [hp, hq]

/-- C8 counterexample: in the part_000 monitor, the first successful poll
after process start (previous set empty, ledger and join-time map empty)
for a server with Alice already online emits a Join event for Alice and
creates a join-time entry for her, contradicting the claim that the first
poll only initializes the tracked set. -/
theorem first_poll_emits_join_counterexample :
    (check_server "mc" 0 mc_player_extractor
        "There are 1 of a max of 20 players online: Alice"
        ∅ (fun _ => none) (fun _ => none)).joinEvents = ["Alice"] ∧
      (check_server "mc" 0 mc_player_extractor
        "There are 1 of a max of 20 players online: Alice"
        ∅ (fun _ => none) (fun _ => none)).joinTimes "Alice" = some 0 := by
  have hex : mc_player_extractor
      "There are 1 of a max of 20 players online: Alice" = {"Alice"} := by
    decide
  have hraw : strContains
      "There are 1 of a max of 20 players online: Alice" "ERROR:" = false := by
    decide
  constructor
  · simp [check_server, hraw, hex, Finset.sdiff_empty, Finset.sort_singleton]
  · simp only [check_server, hraw, Bool.false_eq_true, if_false, hex,
      Finset.sdiff_empty, Finset.empty_sdiff, Finset.sort_empty,
      Finset.sort_singleton, processLeaves, List.foldl_nil]
    rw [processJoins_joinTimes]
    simp

/-- C8 amended.  The palworld_bot monitor's first successful poll (with
the tracked set still empty) only initializes the tracked player set and
emits no Join or Leave events (that variant keeps no join-time map at
all); the part_000 monitor instead treats every player present in the
first successful poll as a fresh join, emitting a Join event and creating
a join-time entry stamped with the poll time — so no playtime from before
the process start is ever attributed. -/
theorem first_poll_initializes_only (game : String) (now : Int)
    (extractor : String → Finset String) (raw : String)
    (stats : PlayerStats) (joinTimes : JoinTimes) (p : String) :
    (∀ s : Finset String, monitor_rcon_task_step ∅ (some s) = (s, [], [])) ∧
      (strContains raw "ERROR:" = false →
        p ∈ extractor raw →
        p ∈ (check_server game now extractor raw ∅ stats joinTimes).joinEvents ∧
          (check_server game now extractor raw ∅ stats joinTimes).joinTimes p =
            some now) := by
  constructor
  · intro s
    simp [monitor_rcon_task_step]
  · intro hok hp
    simp only [check_server, hok, Bool.false_eq_true, if_false]
    have hleft : ((∅ : Finset String) \ extractor raw).sort (· ≤ ·) = [] := by
      rw [Finset.empty_sdiff]
      exact Finset.sort_empty _
    constructor
    · simp [Finset.mem_sort, Finset.sdiff_empty, hp]
    · rw [hleft]
      simp only [processLeaves, List.foldl_nil]
      rw [processJoins_joinTimes]
      simp [Finset.mem_sort, Finset.sdiff_empty, hp]

/-- Witness for C8 amended: a concrete first poll with Alice online in
each variant. -/
theorem first_poll_initializes_only_witness :
    monitor_rcon_task_step ∅ (some {"Alice"}) = ({"Alice"}, [], []) ∧
      ("Alice" ∈ (check_server "mc" 0 mc_player_extractor
          "There are 1 of a max of 20 players online: Alice"
          ∅ (fun _ => none) (fun _ => none)).joinEvents ∧
        (check_server "mc" 0 mc_player_extractor
          "There are 1 of a max of 20 players online: Alice"
          ∅ (fun _ => none) (fun _ => none)).joinTimes "Alice" = some 0) :=
  ⟨(first_poll_initializes_only "mc" 0 mc_player_extractor
      "There are 1 of a max of 20 players online: Alice"
      (fun _ => none) (fun _ => none) "Alice").1 {"Alice"},
   (first_poll_initializes_only "mc" 0 mc_player_extractor
      "There are 1 of a max of 20 players online: Alice"
      (fun _ => none) (fun _ => none) "Alice").2 (by decide) (by decide)⟩

/-- C10. The chat-reward cooldown map is keyed by username alone: the
economy branch of `handle_log_event` behaves identically whatever game the
event came from, and once a chat by a username is rewarded (in any game),
the cooldown entry for that username is set, so a chat by the same
username in any game within the cooldown window is not rewarded and
leaves the cooldown map unchanged. -/
theorem chat_cooldown_keyed_by_username_alone (economyEnabled : Bool)
    (pointsPerChat cooldownSeconds : Int) (g1 g2 : String) (username : String)
    (t0 : Int) (chatCooldowns : String → Option Int) :
    handle_log_event_econ economyEnabled pointsPerChat cooldownSeconds g1
          username t0 chatCooldowns =
        handle_log_event_econ economyEnabled pointsPerChat cooldownSeconds g2
          username t0 chatCooldowns ∧
      ((handle_log_event_econ economyEnabled pointsPerChat cooldownSeconds g1
          username t0 chatCooldowns).2 = true →
        (handle_log_event_econ economyEnabled pointsPerChat cooldownSeconds g1
            username t0 chatCooldowns).1 username = some t0 ∧
          ∀ (g3 : String) (now : Int), now - t0 ≤ cooldownSeconds →
            handle_log_event_econ economyEnabled pointsPerChat cooldownSeconds g3
                username now
                (handle_log_event_econ economyEnabled pointsPerChat
                  cooldownSeconds g1 username t0 chatCooldowns).1 =
              ((handle_log_event_econ economyEnabled pointsPerChat
                  cooldownSeconds g1 username t0 chatCooldowns).1, false)) := by
  refine ⟨rfl, fun hrew => ?_⟩
  by_cases h1 : economyEnabled ∧ 0 < pointsPerChat
  · by_cases h2 : cooldownSeconds < t0 - (chatCooldowns username).getD 0
    · have hmap : (handle_log_event_econ economyEnabled pointsPerChat
          cooldownSeconds g1 username t0 chatCooldowns).1 =
            fun u => if u = username then some t0 else chatCooldowns u := by
        simp [handle_log_event_econ, h1, h2]
      refine ⟨by rw [hmap]; simp, fun g3 now hle => ?_⟩
      rw [hmap]
      have heq : (if username = username then some t0
          else chatCooldowns username) = some t0 := if_pos rfl
      have hin : ¬ (cooldownSeconds <
          now - ((if username = username then some t0
            else chatCooldowns username).getD 0)) := by
        rw [heq]
        simp only [Option.getD_some]
        omega
      simp [handle_log_event_econ, h1, hin]
      omega
    · exfalso
      simp [handle_log_event_econ, h1, h2] at hrew
  · exfalso
    simp [handle_log_event_econ, h1] at hrew

/-- Witness for C10: Alice rewarded in Minecraft at time 100 is not
rewarded in Palworld at time 150 with a 60-second cooldown. -/
theorem chat_cooldown_keyed_by_username_alone_witness :
    handle_log_event_econ true 1 60 "pal" "Alice" 150
        (handle_log_event_econ true 1 60 "mc" "Alice" 100 (fun _ => none)).1 =
      ((handle_log_event_econ true 1 60 "mc" "Alice" 100 (fun _ => none)).1,
       false) :=
  ((chat_cooldown_keyed_by_username_alone true 1 60 "mc" "pal" "Alice" 100
      (fun _ => none)).2 (by decide)).2 "pal" 150 (by decide)

end MultiGameBot
